import Mathlib

/-!
Verification development for the RugRader risk-analysis engine.

The definitions below are a shallow embedding of the TypeScript sources:
  - src/lib/blockchain.ts                              (namespace Blockchain)
  - the wallet-scan route (src/unnamed/part_000 wallet file, analyzeWalletTokens
    and the POST handler)                              (namespace WalletScan)
  - the collection-check route with live providers     (namespace CollCheck)
  - src/app/api/collection-check/route.ts (demo/random) (namespace CollCheckDemo)
  - the Moralis-based library (src/unnamed/part_006)   (namespace MoralisLib)
  - the nft-analyzer route (src/unnamed/part_003)      (namespace NftAnalyzer)

Asynchronous provider calls are modelled by passing each call's resolved
value as an explicit parameter (an Option, where none models a rejected or
unavailable call whose rejection is swallowed by a .catch handler in the
source).  JavaScript numbers are modelled as Rat (for percentages,
confidences and timestamps) or Nat/Int where the source only ever holds
integers.  JavaScript string truthiness (empty string is falsy) is modelled
by jsTruthy.
-/

set_option maxHeartbeats 1000000
set_option maxRecDepth 4000

/-- JS truthiness of an optional string: undefined/null and the empty string
are falsy. -/
def jsTruthy : Option String → Bool
  | none => false
  | some s => s != ""

/-- ASCII lower-casing of one character, as String.prototype.toLowerCase acts
on the ASCII range (the only range appearing in the embedded data). -/
def jsLowerChar (c : Char) : Char :=
  if 65 ≤ c.toNat ∧ c.toNat ≤ 90 then Char.ofNat (c.toNat + 32) else c

/-- Embedding of String.prototype.toLowerCase. -/
def jsToLower (s : String) : String := ⟨s.data.map jsLowerChar⟩

/-- Boolean prefix test on character lists (used to embed startsWith). -/
def listIsPre : List Char → List Char → Bool
  | [], _ => true
  | _ :: _, [] => false
  | a :: as, b :: bs => a == b && listIsPre as bs

/-- Embedding of String.prototype.startsWith. -/
def strStarts (s p : String) : Bool := listIsPre p.data s.data

/-- Embedding of String.prototype.includes (substring test). -/
def jsIncludes (s sub : String) : Bool :=
  s.data.tails.any (fun t => listIsPre sub.data t)

/-- Embedding of Number.prototype.toFixed(1) on the exact rationals used to
model JS numbers (round to one decimal place, half away from zero on the
non-negative inputs arising here). -/
def toFixed1 (q : ℚ) : String :=
  let n : ℤ := Rat.floor (q * 10 + 1 / 2)
  toString (n / 10) ++ "." ++ toString (n % 10).natAbs

/-- Embedding of the JS idiom (a || b) on an optional string a: the default
is taken when a is null/undefined or empty. -/
def jsOrStr (o : Option String) (d : String) : String :=
  match o with
  | none => d
  | some s => if s = "" then d else s

/-- The three-valued risk level used throughout the sources. -/
inductive RiskLevel where
  | low
  | medium
  | high
deriving DecidableEq, Repr

/-- The audit status union type of CollectionInfo. -/
inductive AuditStatus where
  | passed
  | failed
  | unknown
deriving DecidableEq, Repr

/-- Modelled from the spec: the uniform per-item classification the spec
asserts (3 or more factors gives high, 1 or more gives medium, else low).
Used only as the comparison target for claim C1. -/
def levelFromCount3 (n : Nat) : RiskLevel :=
  if n ≥ 3 then .high else if n ≥ 1 then .medium else .low

/-- The stricter classification actually used by two code paths (2 or more
factors already gives high).  Comparison target for the amended claim C1. -/
def levelFromCount2 (n : Nat) : RiskLevel :=
  if n ≥ 2 then .high else if n ≥ 1 then .medium else .low

/-- One entry of a holder distribution: address, token count, percentage of
supply (a JS number, modelled as a rational). -/
structure Holder where
  address : String
  count : Nat
  percentage : ℚ
deriving DecidableEq, Repr

/-- Result shape of the holder-distribution analyses. -/
structure HolderAnalysis where
  uniqueHolders : Nat
  topHolders : List Holder
deriving DecidableEq, Repr

/-- Sum of the percentages of the first five holders, as computed by the
slice(0, 5).reduce((sum, holder) => sum + holder.percentage, 0) idiom shared
by all three analyzeCollectionRiskFactors versions. -/
def topHolderPct (hs : List Holder) : ℚ :=
  (hs.take 5).foldl (fun s h => s + h.percentage) 0

namespace Blockchain

/-- src/lib/blockchain.ts TokenInfo (fields not inspected by the embedded
functions are omitted: address/name/symbol/decimals/balance/price). -/
structure TokenInfo where
  address : String
  riskLevel : RiskLevel
  riskFactors : List String
deriving DecidableEq, Repr

/-- src/lib/blockchain.ts NFTInfo (only the fields the embedded functions
inspect). -/
structure NFTInfo where
  contractAddress : String
  tokenId : String
  name : String
  description : Option String
  image : Option String
  riskLevel : RiskLevel
  riskFactors : List String
deriving DecidableEq, Repr

/-- src/lib/blockchain.ts CollectionInfo (only the fields the embedded
functions inspect). -/
structure CollectionInfo where
  contractAddress : String
  riskFactors : List String
deriving DecidableEq, Repr

/-- blockchain.ts calculateTokenRisk (lines 95-100). -/
def calculateTokenRisk (token : TokenInfo) : RiskLevel :=
  if token.riskFactors.length ≥ 3 then .high
  else if token.riskFactors.length ≥ 1 then .medium
  else .low

/-- blockchain.ts calculateCollectionRisk (lines 102-107). -/
def calculateCollectionRisk (collection : CollectionInfo) : RiskLevel :=
  if collection.riskFactors.length ≥ 3 then .high
  else if collection.riskFactors.length ≥ 1 then .medium
  else .low

/-- blockchain.ts calculateWalletRiskScore (lines 109-123): one running
score over the tokens, continued over the NFTs, capped at 100. -/
def calculateWalletRiskScore (tokens : List TokenInfo) (nfts : List NFTInfo) : Nat :=
  min
    (nfts.foldl
      (fun acc n => if n.riskLevel = .high then acc + 2
        else if n.riskLevel = .medium then acc + 1 else acc)
      (tokens.foldl
        (fun acc t => if t.riskLevel = .high then acc + 3
          else if t.riskLevel = .medium then acc + 1 else acc) 0))
    100

/-- blockchain.ts KNOWN_RISKY_TOKENS (lines 434-437): a single entry, the
PEPE address in mixed case exactly as in the source. -/
def KNOWN_RISKY_TOKENS : List String :=
  ["0x6982508145454Ce325dDbE47a25d4ec3d2311933"]

/-- blockchain.ts KNOWN_SAFE_TOKENS (lines 440-449): all entries lowercase
exactly as in the source. -/
def KNOWN_SAFE_TOKENS : List String :=
  [ "0xa0b86a33e6441e78ca8e27d0e7c8b1c8b8b8b8b8"
  , "0xdac17f958d2ee523a2206206994597c13d831ec7"
  , "0x2260fac5e5542a773aa44fbcfedf7c193bc2c599"
  , "0x6b175474e89094c44da98b954eedeac495271d0f"
  , "0xc02aaa39b223fe8d0a0e5c4f27ead9083c756cc2"
  , "0x1f9840a85d5af5bf1d1762f925bdaddc4201f984"
  , "0x7d1afa7b718fb893db30a3abc0cfc608aacfebb0"
  , "0x514910771af9ca656af840dff83e8264ecf986ca" ]

/-- The { name, symbol } object handed to analyzeTokenRisk. -/
structure TokenMeta where
  name : Option String
  symbol : Option String
deriving DecidableEq, Repr

/-- blockchain.ts analyzeTokenRisk (lines 451-477): four independent pushes
in source order. -/
def analyzeTokenRisk (tokenAddress : String) (tokenInfo : TokenMeta) : List String :=
  (if KNOWN_RISKY_TOKENS.contains (jsToLower tokenAddress) then
    ["High volatility token"] else [])
  ++ (if jsTruthy tokenInfo.name ∧
        jsIncludes (jsToLower (tokenInfo.name.getD "")) "test" then
    ["Test token detected"] else [])
  ++ (if jsTruthy tokenInfo.name ∧
        (jsIncludes (jsToLower (tokenInfo.name.getD "")) "scam"
          ∨ jsIncludes (jsToLower (tokenInfo.name.getD "")) "fake"
          ∨ jsIncludes (jsToLower (tokenInfo.name.getD "")) "phishing") then
    ["Potentially fraudulent token name"] else [])
  ++ (if jsTruthy tokenInfo.symbol ∧ (tokenInfo.symbol.getD "").length > 10 then
    ["Unusually long token symbol"] else [])

/-- NFT metadata object as inspected by the risk analyses. -/
structure NFTMetadata where
  name : Option String
  description : Option String
  image : Option String
deriving DecidableEq, Repr

/-- The NFTData record built by the routes and passed to analyzeNFTRisk. -/
structure NFTData where
  contractAddress : String
  tokenId : String
  name : Option String
  metadata : Option NFTMetadata
deriving DecidableEq, Repr

/-- blockchain.ts analyzeBasicNFTRisk (lines 480-507).  nftData is accepted
but never inspected, exactly as in the source.  Note the image check only
exempts the https and ipfs schemes. -/
def analyzeBasicNFTRisk (nftData : NFTData) (metadata : Option NFTMetadata) :
    List String :=
  (if jsTruthy (metadata.bind (·.name)) = false ∨ metadata = none then
    ["Missing or incomplete metadata"] else [])
  ++ (match metadata with
    | none => []
    | some m =>
      if jsTruthy m.name ∧
          (jsIncludes (jsToLower (m.name.getD "")) "test"
            ∨ jsIncludes (jsToLower (m.name.getD "")) "copy"
            ∨ jsIncludes (jsToLower (m.name.getD "")) "fake") then
        ["Suspicious NFT name detected"] else [])
  ++ (match metadata with
    | none => ["No image URL found"]
    | some m =>
      if jsTruthy m.image then
        (if strStarts (m.image.getD "") "https://" = false ∧
            strStarts (m.image.getD "") "ipfs://" = false then
          ["Potentially inaccessible image URL"] else [])
      else ["No image URL found"])

/-- forensicData.tradingPatterns of BitScrunchNFTAnalysis. -/
structure BsTradingData where
  isWashTrading : Bool
  suspiciousTransactions : Nat
  volumeManipulation : Bool
  rapidTransfers : Bool
deriving DecidableEq, Repr

/-- forensicData.priceEstimation of BitScrunchNFTAnalysis. -/
structure BsPriceEstimation where
  estimatedValue : ℚ
  confidence : ℚ
  methodology : String
deriving DecidableEq, Repr

/-- forensicData.ipInfringement of BitScrunchNFTAnalysis. -/
structure BsIpInfringement where
  isInfringing : Bool
  similarityScore : ℚ
deriving DecidableEq, Repr

/-- forensicData.metadata of BitScrunchNFTAnalysis. -/
structure BsMetadataForensics where
  isAuthentic : Bool
  hasManipulation : Bool
deriving DecidableEq, Repr

/-- forensicData of BitScrunchNFTAnalysis. -/
structure BsForensicData where
  tradingPatterns : BsTradingData
  priceEstimation : BsPriceEstimation
  ipInfringement : BsIpInfringement
  metadata : BsMetadataForensics
deriving DecidableEq, Repr

/-- walletBehavior of BitScrunchNFTAnalysis. -/
structure BsOwnerBehavior where
  ownerRiskScore : ℚ
  suspiciousActivity : List String
deriving DecidableEq, Repr

/-- blockchain.ts BitScrunchNFTAnalysis (only inspected fields). -/
structure BitScrunchNFTAnalysis where
  riskScore : ℚ
  forensicData : BsForensicData
  walletBehavior : BsOwnerBehavior
deriving DecidableEq, Repr

/-- blockchain.ts BitScrunchTradingPatterns. -/
structure BitScrunchTradingPatterns where
  washTradingDetected : Bool
  volumeManipulation : Bool
  priceManipulation : Bool
  rapidSuccessiveTransfers : Bool
  suspiciousTimingPatterns : Bool
  crossPlatformArbitrage : Bool
deriving DecidableEq, Repr

/-- blockchain.ts analyzeNFTRisk (lines 513-586).  The two awaited
BitScrunch calls are modelled by their resolved values (none whenever the
API key is absent or the call failed, since both wrappers resolve to null
in those cases); as neither wrapped promise can reject, the catch branch
pushing an explanatory factor is unreachable and not modelled. -/
def analyzeNFTRisk (nftData : NFTData) (metadata : Option NFTMetadata)
    (bs : Option BitScrunchNFTAnalysis)
    (tradingPatterns : Option BitScrunchTradingPatterns) : List String :=
  analyzeBasicNFTRisk nftData metadata
  ++ (match bs with
    | none => []
    | some b =>
      (if b.forensicData.tradingPatterns.isWashTrading then
        ["Wash trading detected by BitScrunch AI"] else [])
      ++ (if b.forensicData.tradingPatterns.volumeManipulation then
        ["Volume manipulation detected"] else [])
      ++ (if b.forensicData.tradingPatterns.rapidTransfers then
        ["Suspicious rapid transfer patterns"] else [])
      ++ (if b.forensicData.ipInfringement.isInfringing then
        ["Potential IP infringement ("
          ++ toString b.forensicData.ipInfringement.similarityScore
          ++ "% similarity)"] else [])
      ++ (if b.forensicData.metadata.isAuthentic = false then
        ["Metadata authenticity questioned by BitScrunch analysis"] else [])
      ++ (if b.forensicData.metadata.hasManipulation then
        ["Metadata manipulation detected"] else [])
      ++ (if b.walletBehavior.ownerRiskScore > 70 then
        ["High-risk wallet owner detected"] else [])
      ++ (if b.forensicData.priceEstimation.confidence < 3 / 10 then
        ["Low price estimation confidence - volatile or manipulated market"]
        else []))
  ++ (match tradingPatterns with
    | none => []
    | some tp =>
      (if tp.priceManipulation then
        ["Price manipulation patterns detected"] else [])
      ++ (if tp.suspiciousTimingPatterns then
        ["Suspicious trading timing patterns"] else [])
      ++ (if tp.crossPlatformArbitrage then
        ["Cross-platform arbitrage activity detected"] else []))

/-- Typed failures thrown by the per-provider operation wrappers (the Error
values constructed in the catch blocks of getWalletTokens and the Alchemy
helpers). -/
inductive ApiError where
  | rateLimited (msg : String)
  | unauthorized (msg : String)
  | payload (msg : String)
  | httpFailure (status : Option Nat)
deriving DecidableEq, Repr

/-- Loop body of blockchain.ts withRetry (lines 129-150): run the current
attempt; on success return, otherwise recurse while attempts remain, and
rethrow the last error once they are exhausted.  attempt numbers the current
try, rem is the number of further tries allowed. -/
def withRetryGo (op : Nat → Except ApiError α) (attempt : Nat) :
    Nat → Except ApiError α
  | 0 =>
    match op attempt with
    | .ok v => .ok v
    | .error e => .error e
  | rem + 1 =>
    match op attempt with
    | .ok v => .ok v
    | .error _ => withRetryGo op (attempt + 1) rem

/-- blockchain.ts withRetry (lines 129-150), for maxAttempts at least 1 (the
source never calls it with 0).  The backoff delays do not affect the value
and are not modelled. -/
def withRetry (op : Nat → Except ApiError α) (maxAttempts : Nat) :
    Except ApiError α :=
  withRetryGo op 1 (maxAttempts - 1)

/-- Instrumented variant of withRetryGo also returning how many times the
operation was invoked. -/
def withRetryGoCount (op : Nat → Except ApiError α) (attempt : Nat) :
    Nat → Except ApiError α × Nat
  | 0 =>
    match op attempt with
    | .ok v => (.ok v, 1)
    | .error e => (.error e, 1)
  | rem + 1 =>
    match op attempt with
    | .ok v => (.ok v, 1)
    | .error _ =>
      let r := withRetryGoCount op (attempt + 1) rem
      (r.1, r.2 + 1)

/-- withRetry together with the number of attempts actually made. -/
def withRetryCount (op : Nat → Except ApiError α) (maxAttempts : Nat) :
    Except ApiError α × Nat :=
  withRetryGoCount op 1 (maxAttempts - 1)

/-- A raw Moralis HTTP outcome: ok carries response.data.result (absent
models a payload without the field), error carries the HTTP status when
there is one. -/
def MoralisRaw (α : Type) := Nat → Except (Option Nat) (Option (List α))

/-- The operation closure passed to withRetry by getWalletTokens
(lines 217-238): unwrap result with a [] default, map status 429 and 401 to
the dedicated Error values, rethrow anything else. -/
def moralisTokensOp (raw : MoralisRaw α) : Nat → Except ApiError (List α) :=
  fun n =>
    match raw n with
    | .ok r => .ok (r.getD [])
    | .error s =>
      if s = some 429 then
        .error (.rateLimited "Rate limit exceeded for Moralis API")
      else if s = some 401 then
        .error (.unauthorized "Invalid Moralis API key")
      else .error (.httpFailure s)

/-- A raw Alchemy JSON-RPC outcome: errField models response.data.error,
tokenBalances models response.data.result.tokenBalances (the inner strings
are the tokenBalance hex values). -/
structure AlchemyRaw where
  errField : Option String
  tokenBalances : Option (List String)
deriving DecidableEq, Repr

/-- The operation closure passed to withRetry by getWalletTokensAlchemy
(lines 292-321): a payload error throws, a present tokenBalances array is
filtered of zero balances, anything else yields []. -/
def alchemyTokensOp (raw : Nat → Except (Option Nat) AlchemyRaw) :
    Nat → Except ApiError (List String) :=
  fun n =>
    match raw n with
    | .ok r =>
      match r.errField with
      | some msg => .error (.payload ("Alchemy API error: " ++ msg))
      | none =>
        match r.tokenBalances with
        | some ts => .ok (ts.filter (fun t => t != "0x0" && t != "0x"))
        | none => .ok []
    | .error s =>
      if s = some 429 then
        .error (.rateLimited "Rate limit exceeded for Alchemy API")
      else .error (.httpFailure s)

/-- blockchain.ts getWalletTokensAlchemy (lines 286-326): without a key,
resolve [] directly; otherwise retry the operation twice and resolve [] on
exhaustion (the trailing .catch).  The Except result type records that the
returned promise could in principle reject; every branch in fact resolves. -/
def getWalletTokensAlchemy (alchemyKey : Option String)
    (alchemyOp : Nat → Except ApiError (List α)) : Except ApiError (List α) :=
  match alchemyKey with
  | none => .ok []
  | some _ =>
    match withRetry alchemyOp 2 with
    | .ok r => .ok r
    | .error _ => .ok []

/-- blockchain.ts getWalletTokens (lines 211-243): without a Moralis key,
defer to the Alchemy helper; otherwise retry the Moralis operation twice and
fall back to the Alchemy helper on exhaustion (the trailing .catch). -/
def getWalletTokens (moralisKey alchemyKey : Option String)
    (moralisOp alchemyOp : Nat → Except ApiError (List α)) :
    Except ApiError (List α) :=
  match moralisKey with
  | none => getWalletTokensAlchemy alchemyKey alchemyOp
  | some _ =>
    match withRetry moralisOp 2 with
    | .ok r => .ok r
    | .error _ => getWalletTokensAlchemy alchemyKey alchemyOp

end Blockchain

namespace WalletScan

/-- Per-token risk level assigned inline by analyzeWalletTokens in the
wallet-scan route (the expression at its lines 146-148 and again 197-199):
a known-safe address is forced low, otherwise already 2 factors give high. -/
def walletTokenRiskLevel (tokenAddress : String) (riskFactors : List String) :
    RiskLevel :=
  if Blockchain.KNOWN_SAFE_TOKENS.contains (jsToLower tokenAddress) then .low
  else if riskFactors.length ≥ 2 then .high
  else if riskFactors.length ≥ 1 then .medium
  else .low

/-- Per-NFT risk level assigned inline by analyzeWalletNFTs in the
wallet-scan route (lines 301-302). -/
def walletNFTRiskLevel (riskFactors : List String) : RiskLevel :=
  if riskFactors.length ≥ 3 then .high
  else if riskFactors.length ≥ 1 then .medium
  else .low

/-- Wallet-level classification of the aggregate score in the POST handler
(line 69 of the wallet-scan route). -/
def walletRiskLevel (riskScore : Nat) : RiskLevel :=
  if riskScore ≥ 10 then .high
  else if riskScore ≥ 5 then .medium
  else .low

end WalletScan

/-- Price-estimation result shape returned by getBitScrunchPriceEstimation. -/
structure PriceEstResult where
  estimatedValue : ℚ
  confidence : ℚ
  methodology : String
deriving DecidableEq, Repr

/-- IP-infringement check result shape returned by
checkBitScrunchIPInfringement. -/
structure IpCheckResult where
  isInfringing : Bool
  similarityScore : ℚ
  confidence : ℚ
deriving DecidableEq, Repr

namespace CollCheck

/-- External stats object as inspected by the live collection-check route's
analyzeCollectionRiskFactors; total_volume is parseFloat-ed by the source
and modelled as a rational, and the age comparison on created_date is
modelled by the number of days since creation it computes. -/
structure ExternalStats where
  totalVolume : Option ℚ
  createdDaysAgo : Option ℚ
  imageUrl : Option String
deriving DecidableEq, Repr

/-- knownAuditedCollections of the live collection-check route's
getAuditStatus. -/
def knownAuditedCollections : List String :=
  [ "0xbc4ca0eda7647a8ab7c2061c2e118a18a936f13d"
  , "0x60e4d786628fea6478f785a6d7e704777c86a7c6"
  , "0xed5af388653567af2f388e6224dc7c4b3241c544"
  , "0x8a90cab2b38dba80c64b7734e58ee1db38b8992e"
  , "0x49cf6f5d44e70224e2e23fdcdd2c053f30ada28b" ]

/-- getAuditStatus of the live collection-check route: allow-listed
addresses pass, red-flag names fail, anything else is unknown. -/
def getAuditStatus (contractAddress name : String) : AuditStatus :=
  if knownAuditedCollections.contains (jsToLower contractAddress) then .passed
  else if jsIncludes (jsToLower name) "scam"
      ∨ jsIncludes (jsToLower name) "rug"
      ∨ jsIncludes (jsToLower name) "fake" then .failed
  else .unknown

/-- The holder-concentration pushes at the head of the live route's
analyzeCollectionRiskFactors. -/
def concentrationFactors (holderAnalysis : HolderAnalysis) : List String :=
  if holderAnalysis.topHolders.length > 0 then
    (if topHolderPct holderAnalysis.topHolders > 50 then
      ["High concentration: Top 5 holders own "
        ++ toFixed1 (topHolderPct holderAnalysis.topHolders)
        ++ "% of supply 🐋"]
    else if topHolderPct holderAnalysis.topHolders > 30 then
      ["Medium concentration: Top 5 holders own "
        ++ toFixed1 (topHolderPct holderAnalysis.topHolders)
        ++ "% of supply"]
    else [])
  else []

/-- The pushes of the live route's analyzeCollectionRiskFactors after the
holder-concentration ones, in source order. -/
def riskFactorsAfterConcentration (name : String)
    (externalStats : Option ExternalStats)
    (tradingPatterns : Option Blockchain.BitScrunchTradingPatterns)
    (priceEstimation : Option PriceEstResult) (ipCheck : Option IpCheckResult)
    (etherscanConfigured : Bool) (etherscanSourceCode : Option String) :
    List String :=
  (if jsIncludes (jsToLower name) "test" ∨ jsIncludes (jsToLower name) "demo"
    then ["Test/Demo collection detected"] else [])
  ++ (if jsIncludes (jsToLower name) "copy" ∨ jsIncludes (jsToLower name) "fake"
    then ["Potentially fraudulent collection name"] else [])
  ++ (match externalStats with
    | none => []
    | some es =>
      (match es.totalVolume with
        | some v => if v < 10 then ["Low trading volume detected"] else []
        | none => [])
      ++ (match es.createdDaysAgo with
        | some d =>
          if d < 30 then ["Recently created collection (< 30 days)"] else []
        | none => []))
  ++ (match tradingPatterns with
    | none => []
    | some tp =>
      (if tp.washTradingDetected then
        ["BitScrunch AI detected wash trading patterns in collection"] else [])
      ++ (if tp.volumeManipulation then
        ["Collection shows signs of volume manipulation"] else [])
      ++ (if tp.priceManipulation then
        ["Price manipulation detected across collection"] else [])
      ++ (if tp.suspiciousTimingPatterns then
        ["Suspicious coordinated trading timing detected"] else [])
      ++ (if tp.crossPlatformArbitrage then
        ["Unusual cross-platform arbitrage activity"] else []))
  ++ (match priceEstimation with
    | some pe =>
      if pe.confidence < 3 / 10 then
        ["Low price estimation confidence - market instability detected"]
      else []
    | none => [])
  ++ (match externalStats.bind (·.imageUrl) with
    | some _ =>
      (match ipCheck with
        | some ip =>
          if ip.isInfringing ∧ ip.confidence > 8 / 10 then
            ["Collection artwork may infringe IP rights ("
              ++ toString ip.similarityScore ++ "% similarity)"]
          else []
        | none => [])
    | none => [])
  ++ (if etherscanConfigured then
    (match etherscanSourceCode with
      | some src => if src = "" then ["Contract not verified on Etherscan"]
        else []
      | none => [])
  else [])

/-- analyzeCollectionRiskFactors of the live collection-check route.  The
BitScrunch trading-pattern and price-estimation calls and the IP check are
modelled by their resolved values (none when unavailable); as those wrapped
promises resolve rather than reject, the catch branch pushing an
explanatory factor is unreachable and not modelled.  The Etherscan
verification call is modelled by whether the key is configured and by the
SourceCode field of result[0] when the request succeeds (none models a
failed request or an absent field). -/
def analyzeCollectionRiskFactors (contractAddress name : String)
    (holderAnalysis : HolderAnalysis) (externalStats : Option ExternalStats)
    (tradingPatterns : Option Blockchain.BitScrunchTradingPatterns)
    (priceEstimation : Option PriceEstResult) (ipCheck : Option IpCheckResult)
    (etherscanConfigured : Bool) (etherscanSourceCode : Option String) :
    List String :=
  concentrationFactors holderAnalysis
  ++ riskFactorsAfterConcentration name externalStats tradingPatterns
    priceEstimation ipCheck etherscanConfigured etherscanSourceCode

end CollCheck

namespace CollCheckDemo

/-- The holder-concentration push at the head of the demo route's
analyzeCollectionRiskFactors. -/
def concentrationFactors (topHolders : List Holder) : List String :=
  if topHolderPct topHolders > 50 then
    ["Top 5 holders own " ++ toFixed1 (topHolderPct topHolders)
      ++ "% of supply 🐋"]
  else []

/-- The pushes of the demo route's analyzeCollectionRiskFactors after the
holder-concentration one, in source order. -/
def riskFactorsAfterConcentration (name : String) (randomRisk : ℚ) :
    List String :=
  (if jsIncludes (jsToLower name) "test" ∨ jsIncludes (jsToLower name) "demo"
    then ["Test/Demo collection detected"] else [])
  ++ (if randomRisk > 7 / 10 then ["Wash trading risk detected ⚠️"] else [])
  ++ (if randomRisk > 1 / 2 then ["Floor price volatility: High 🔺"] else [])
  ++ (if randomRisk > 3 / 10 then ["Limited marketplace presence"] else [])

/-- analyzeCollectionRiskFactors of src/app/api/collection-check/route.ts
(lines 140-174).  The single Math.random() draw stored in randomRisk is an
explicit input of the embedding: the source computes it afresh on every
invocation, independently of the collection facts. -/
def analyzeCollectionRiskFactors (contractAddress name : String)
    (topHolders : List Holder) (randomRisk : ℚ) : List String :=
  concentrationFactors topHolders
  ++ riskFactorsAfterConcentration name randomRisk

/-- getAuditStatus of src/app/api/collection-check/route.ts (lines 176-183):
the status is a function of a fresh Math.random() draw alone. -/
def getAuditStatus (random : ℚ) : AuditStatus :=
  if random > 8 / 10 then .failed
  else if random > 3 / 10 then .passed
  else .unknown

end CollCheckDemo

namespace MoralisLib

/-- Collection metadata as inspected by part_006's
analyzeCollectionRiskFactors; the source parseInt-s collection.totalSupply
with a "0" default, modelled as the resulting natural number. -/
structure CollectionMeta where
  name : Option String
  totalSupply : Nat
deriving DecidableEq, Repr

/-- part_006 calculateTokenRiskLevel (lines 359-363). -/
def calculateTokenRiskLevel (riskFactors : List String) : RiskLevel :=
  if riskFactors.length ≥ 3 then .high
  else if riskFactors.length ≥ 1 then .medium
  else .low

/-- part_006 calculateNFTRiskLevel (lines 365-369): high already at two
factors, unlike every other level function in the repository. -/
def calculateNFTRiskLevel (riskFactors : List String) : RiskLevel :=
  if riskFactors.length ≥ 2 then .high
  else if riskFactors.length ≥ 1 then .medium
  else .low

/-- The holder-concentration push at the head of part_006's
analyzeCollectionRiskFactors. -/
def concentrationFactors (topHolders : List Holder) : List String :=
  if topHolderPct topHolders > 50 then
    ["Top 5 holders own " ++ toFixed1 (topHolderPct topHolders)
      ++ "% of supply 🐋"]
  else []

/-- The pushes of part_006's analyzeCollectionRiskFactors after the
holder-concentration one, in source order. -/
def riskFactorsAfterConcentration (collection : CollectionMeta)
    (holderAnalysis : HolderAnalysis) (isVerified : Bool) : List String :=
  (if isVerified = false then ["Contract not verified on Etherscan"] else [])
  ++ (match collection.name with
    | some nm =>
      if nm ≠ "" ∧
          (jsIncludes (jsToLower nm) "test" ∨ jsIncludes (jsToLower nm) "fake"
            ∨ jsIncludes (jsToLower nm) "copy"
            ∨ jsIncludes (jsToLower nm) "clone"
            ∨ jsIncludes (jsToLower nm) "scam") then
        ["Suspicious collection name detected"] else []
    | none => [])
  ++ (if collection.totalSupply < 100 then
    ["Unusually low total supply (< 100)"]
  else if collection.totalSupply > 100000 then
    ["Unusually high total supply (> 100,000)"]
  else [])
  ++ (if 10 * holderAnalysis.uniqueHolders < collection.totalSupply then
    ["Low holder diversity - potential wash trading"] else [])

/-- part_006 analyzeCollectionRiskFactors (lines 537-585).  The Etherscan
getContractInfo call is modelled by its isVerified result (false when the
key is missing or the request fails, as in the source), and the comparison
uniqueHolders < totalSupply * 0.1 is stated over integers as
10 * uniqueHolders < totalSupply. -/
def analyzeCollectionRiskFactors (contractAddress : String)
    (collection : CollectionMeta) (holderAnalysis : HolderAnalysis)
    (isVerified : Bool) : List String :=
  concentrationFactors holderAnalysis.topHolders
  ++ riskFactorsAfterConcentration collection holderAnalysis isVerified

end MoralisLib

/-- Wallet-behavior result shape returned by
analyzeBitScrunchWalletBehavior. -/
structure WalletBehaviorResult where
  riskScore : ℚ
  tradingPatterns : List String
  gamingActivity : Bool
  suspiciousActivity : List String
deriving DecidableEq, Repr

namespace NftAnalyzer

/-- One NFT transfer record from the Etherscan fallback; timeStamp is the
parseInt-ed Unix timestamp.  The from/to fields are renamed fromAddr/toAddr
because from is reserved in Lean. -/
structure Tx where
  tokenID : String
  fromAddr : String
  toAddr : String
  timeStamp : ℤ
deriving DecidableEq, Repr

/-- knownProblematicAddresses of analyzeOwnershipPatterns. -/
def knownProblematicAddresses : List String :=
  ["0x0000000000000000000000000000000000000000"]

/-- analyzeCollectionReputation of the BitScrunch nft-analyzer route.  The
Etherscan first-transaction lookup is modelled by the number of days since
creation it computes (none when the key is missing, the request fails, or
no timestamp is present). -/
def analyzeCollectionReputation (contractAddress collectionName : String)
    (creationDaysAgo : Option ℚ) : List String :=
  (if jsIncludes (jsToLower collectionName) "clone"
      ∨ jsIncludes (jsToLower collectionName) "copy"
      ∨ jsIncludes (jsToLower collectionName) "fake"
      ∨ jsIncludes (jsToLower collectionName) "unofficial" then
    ["Potential copycat or unofficial collection"] else [])
  ++ (if jsIncludes (jsToLower collectionName) "test"
      ∨ jsIncludes (jsToLower collectionName) "demo"
      ∨ jsIncludes (jsToLower collectionName) "sample" then
    ["Test or demo collection detected"] else [])
  ++ (match creationDaysAgo with
    | some d =>
      if d < 7 then ["Very recently created collection (< 7 days)"]
      else if d < 30 then ["Recently created collection (< 30 days)"]
      else []
    | none => [])

/-- analyzeOwnershipPatterns of the BitScrunch nft-analyzer route.  The
getCode RPC call is modelled by its resolved value (none when it failed)
and the BitScrunch wallet-behavior call by its resolved value (none when
unavailable). -/
def analyzeOwnershipPatterns (contractAddress tokenId owner : String)
    (ownerCode : Option String) (walletBehavior : Option WalletBehaviorResult) :
    List String :=
  (if knownProblematicAddresses.contains (jsToLower owner) then
    ["NFT owned by flagged address"] else [])
  ++ (if owner ≠ "" then
    (match ownerCode with
      | some code =>
        if code ≠ "0x" then
          ["NFT owned by smart contract (verify legitimacy)"] else []
      | none => [])
  else [])
  ++ (match walletBehavior with
    | none => []
    | some wb =>
      (if wb.riskScore > 70 then
        ["High-risk wallet owner profile detected"] else [])
      ++ wb.suspiciousActivity.map (fun a => "Wallet activity: " ++ a)
      ++ (if wb.gamingActivity then
        ["Wallet shows gaming activity patterns (verify legitimacy)"] else []))

/-- Accumulate an address into a duplicate-free list, modelling Set.add. -/
def insertUnique (l : List String) (a : String) : List String :=
  if l.contains a then l else l ++ [a]

/-- analyzeRecentTransactions of the BitScrunch nft-analyzer route: the
Etherscan transfer-list call is modelled by its resolved record list (none
when the key is missing or the request fails).  The source loop visits
indices 0 to length-2 of the ten most recent matching transfers, collecting
the from/to addresses of each visited transfer and counting successive
pairs closer than 24h; size < length * 0.5 is stated over integers as
2 * size < length. -/
def analyzeRecentTransactions (tokenId : String) (txs : Option (List Tx)) :
    List String :=
  match txs with
  | none => []
  | some allTxs =>
    let transactions := allTxs.filter (fun tx => tx.tokenID == tokenId)
    if transactions.length > 10 then
      let recentTxs := transactions.take 10
      let pairs := recentTxs.zip recentTxs.tail
      let uniqueAddresses := pairs.foldl
        (fun acc p => insertUnique (insertUnique acc p.1.fromAddr) p.1.toAddr) []
      let rapidTransfers :=
        pairs.countP (fun p => p.1.timeStamp - p.2.timeStamp < 86400)
      (if 2 * uniqueAddresses.length < transactions.length then
        ["Limited unique addresses in recent transactions (potential wash trading)"]
      else [])
      ++ (if rapidTransfers > 3 then
        ["Multiple rapid transfers detected (potential market manipulation)"]
      else [])
    else []

/-- analyzeTradingPatterns of the BitScrunch nft-analyzer route: BitScrunch
patterns when available, else the Etherscan fallback; then the
price-estimation factors. -/
def analyzeTradingPatterns (tokenId : String)
    (tradingPatterns : Option Blockchain.BitScrunchTradingPatterns)
    (fallbackTxs : Option (List Tx)) (priceEst : Option PriceEstResult) :
    List String :=
  (match tradingPatterns with
    | some tp =>
      (if tp.washTradingDetected then
        ["Wash trading patterns detected by BitScrunch AI"] else [])
      ++ (if tp.volumeManipulation then
        ["Volume manipulation detected"] else [])
      ++ (if tp.priceManipulation then
        ["Price manipulation patterns identified"] else [])
      ++ (if tp.rapidSuccessiveTransfers then
        ["Rapid successive transfers detected (potential pump scheme)"] else [])
      ++ (if tp.suspiciousTimingPatterns then
        ["Suspicious trading timing patterns detected"] else [])
      ++ (if tp.crossPlatformArbitrage then
        ["Cross-platform arbitrage activity detected"] else [])
    | none => analyzeRecentTransactions tokenId fallbackTxs)
  ++ (match priceEst with
    | none => []
    | some pe =>
      (if pe.confidence < 3 / 10 then
        ["Low price estimation confidence - market may be manipulated"] else [])
      ++ (if pe.methodology = "insufficient_data" then
        ["Insufficient trading data for reliable price estimation"] else []))

/-- analyzeNFTRiskFactors of the BitScrunch nft-analyzer route: the four
sub-analyses in source order followed by the IP check when an image URL is
present.  None of the modelled operations can throw, so the catch branch
pushing an explanatory factor is unreachable and not modelled. -/
def analyzeNFTRiskFactors (contractAddress tokenId : String)
    (metadata : Option Blockchain.NFTMetadata)
    (tokenURI collectionName owner : String)
    (bs : Option Blockchain.BitScrunchNFTAnalysis)
    (tp1 : Option Blockchain.BitScrunchTradingPatterns)
    (creationDaysAgo : Option ℚ) (ownerCode : Option String)
    (walletBehavior : Option WalletBehaviorResult)
    (tp2 : Option Blockchain.BitScrunchTradingPatterns)
    (fallbackTxs : Option (List Tx)) (priceEst : Option PriceEstResult)
    (ipCheck : Option IpCheckResult) : List String :=
  Blockchain.analyzeNFTRisk
    { contractAddress := contractAddress, tokenId := tokenId
      name := metadata.bind (·.name), metadata := metadata }
    metadata bs tp1
  ++ analyzeCollectionReputation contractAddress collectionName creationDaysAgo
  ++ analyzeOwnershipPatterns contractAddress tokenId owner ownerCode
    walletBehavior
  ++ analyzeTradingPatterns tokenId tp2 fallbackTxs priceEst
  ++ (if jsTruthy (metadata.bind (·.image)) then
    (match ipCheck with
      | some ip =>
        if ip.isInfringing ∧ ip.confidence > 7 / 10 then
          ["Potential IP infringement detected ("
            ++ toString ip.similarityScore ++ "% similarity)"]
        else []
      | none => [])
  else [])

/-- NFTInfo record as produced by the BitScrunch nft-analyzer route. -/
structure NFTInfo where
  contractAddress : String
  tokenId : String
  name : String
  description : Option String
  image : Option String
  riskLevel : RiskLevel
  riskFactors : List String
  metadata : Option Blockchain.NFTMetadata
deriving DecidableEq, Repr

/-- analyzeNFT of the BitScrunch nft-analyzer route.  Each of the three
on-chain reads carries its own catch substituting a default, so a rejected
ownerOf/tokenURI/name call (modelled by none) resolves to the default and
Promise.all never rejects: the outer catch returning the
Analysis Failed verdict with factors NFT analysis failed and
Token may not exist or be invalid is unreachable from these failures, and
the throw of NFT not found or invalid token ID never fires.  fetchMeta
models the result of fetchNFTMetadata on the obtained tokenURI;
fetchNFTMetadata returns null immediately on the empty URI, which the
embedding reproduces. -/
def analyzeNFT (contractAddress tokenId : String)
    (ownerOfRes tokenURIRes nameRes : Option String)
    (fetchMeta : Option Blockchain.NFTMetadata)
    (bs : Option Blockchain.BitScrunchNFTAnalysis)
    (tp1 : Option Blockchain.BitScrunchTradingPatterns)
    (creationDaysAgo : Option ℚ) (ownerCode : Option String)
    (walletBehavior : Option WalletBehaviorResult)
    (tp2 : Option Blockchain.BitScrunchTradingPatterns)
    (fallbackTxs : Option (List Tx)) (priceEst : Option PriceEstResult)
    (ipCheck : Option IpCheckResult) : NFTInfo :=
  let owner := ownerOfRes.getD ""
  let tokenURI := tokenURIRes.getD ""
  let collectionName := nameRes.getD "Unknown Collection"
  let metadata := if tokenURI = "" then none else fetchMeta
  let riskFactors := analyzeNFTRiskFactors contractAddress tokenId metadata
    tokenURI collectionName owner bs tp1 creationDaysAgo ownerCode
    walletBehavior tp2 fallbackTxs priceEst ipCheck
  let riskLevel : RiskLevel :=
    if riskFactors.length ≥ 3 then .high
    else if riskFactors.length ≥ 1 then .medium
    else .low
  { contractAddress := contractAddress
    tokenId := tokenId
    name := jsOrStr (metadata.bind (·.name)) ("Token #" ++ tokenId)
    description := metadata.bind (·.description)
    image := metadata.bind (·.image)
    riskLevel := riskLevel
    riskFactors := riskFactors
    metadata := metadata }

end NftAnalyzer

/-- Recognizer for the live route's high-concentration factor wording. -/
def isHighConcFactor (s : String) : Bool := strStarts s "High concentration:"

/-- Recognizer for the live route's medium-concentration factor wording. -/
def isMedConcFactor (s : String) : Bool := strStarts s "Medium concentration:"

/-- Recognizer for the single-tier concentration factor wording used by the
demo route and part_006. -/
def isTop5ConcFactor (s : String) : Bool := strStarts s "Top 5 holders own"

/-- A string matching none of the three concentration wordings. -/
abbrev notConcFactor (x : String) : Prop :=
  isHighConcFactor x = false ∧ isMedConcFactor x = false
    ∧ isTop5ConcFactor x = false

/-! Helper lemmas shared by the claim theorems. -/

/-- Lower-casing never produces the uppercase letter C. -/
theorem jsLowerChar_ne_C (c : Char) : jsLowerChar c ≠ 'C' := by
  unfold jsLowerChar
  split
  case isTrue h =>
    obtain ⟨h1, h2⟩ := h
    generalize c.toNat = n at h1 h2 ⊢
    interval_cases n <;> decide
  case isFalse h =>
    intro hEq
    rw [hEq] at h
    exact h (by decide)

/-- No lower-cased string equals the mixed-case PEPE address stored in
KNOWN_RISKY_TOKENS. -/
theorem jsToLower_ne_pepe (s : String) :
    jsToLower s ≠ "0x6982508145454Ce325dDbE47a25d4ec3d2311933" := by
  intro h
  have hd : (jsToLower s).data
      = "0x6982508145454Ce325dDbE47a25d4ec3d2311933".data :=
    congrArg String.data h
  have hC : 'C' ∈ (jsToLower s).data := by rw [hd]; decide
  have hmap : (jsToLower s).data = s.data.map jsLowerChar := rfl
  rw [hmap] at hC
  obtain ⟨a, _, ha⟩ := List.mem_map.mp hC
  exact jsLowerChar_ne_C a ha

/-- Membership in a conditional singleton forces equality with its element. -/
theorem mem_if_singleton {c : Prop} [Decidable c] {x a : String}
    (h : x ∈ (if c then [a] else ([] : List String))) : x = a := by
  split at h
  · simpa using h
  · simp at h

/-- Folding the per-item score increments over a list counts the high and
medium items with their respective weights. -/
theorem foldl_risk_count {α : Type} (hi md : Nat) (lvl : α → RiskLevel) :
    ∀ (l : List α) (acc : Nat),
      l.foldl (fun a x => if lvl x = .high then a + hi
        else if lvl x = .medium then a + md else a) acc
      = acc + hi * l.countP (fun x => decide (lvl x = .high))
          + md * l.countP (fun x => decide (lvl x = .medium)) := by
  intro l
  induction l with
  | nil => intro acc; simp
  | cons x xs ih =>
    intro acc
    simp only [List.foldl_cons, List.countP_cons]
    rcases hcase : lvl x with _ | _ | _ <;>
      simp only [hcase, reduceCtorEq, if_true, if_false, ih] <;> ring_nf <;>
      simp [hcase] <;> ring

/-- Appending strings concatenates their character data. -/
theorem strData_append (a b : String) : (a ++ b).data = a.data ++ b.data := by
  cases a; cases b; rfl

/-- A prefix of a list stays a prefix after appending. -/
theorem listIsPre_append_true :
    ∀ (p c v : List Char), listIsPre p c = true →
      listIsPre p (c ++ v) = true := by
  intro p
  induction p with
  | nil => intro c v _; rfl
  | cons a as ih =>
    intro c v h
    cases c with
    | nil => simp [listIsPre] at h
    | cons b bs =>
      cases hab : (a == b) with
      | false => simp [listIsPre, hab] at h
      | true =>
        have h2 : listIsPre as bs = true := by
          simpa [listIsPre, hab] using h
        simpa [listIsPre, hab] using ih bs v h2

/-- A non-prefix that is no longer than the list stays a non-prefix after
appending. -/
theorem listIsPre_append_false :
    ∀ (p c v : List Char), listIsPre p c = false → p.length ≤ c.length →
      listIsPre p (c ++ v) = false := by
  intro p
  induction p with
  | nil => intro c v h _; simp [listIsPre] at h
  | cons a as ih =>
    intro c v h hlen
    cases c with
    | nil => simp at hlen
    | cons b bs =>
      cases hab : (a == b) with
      | false => simp [listIsPre, hab]
      | true =>
        have h2 : listIsPre as bs = false := by
          simpa [listIsPre, hab] using h
        have hl2 : as.length ≤ bs.length := by
          simpa using hlen
        simpa [listIsPre, hab] using ih bs v h2 hl2

/-- startsWith holds on a three-part concatenation whose constant head
already carries the prefix. -/
theorem strStarts_concat_true (c v w p : String)
    (h : listIsPre p.data c.data = true) : strStarts (c ++ v ++ w) p = true := by
  unfold strStarts
  rw [strData_append, strData_append, List.append_assoc]
  exact listIsPre_append_true _ _ _ h

/-- startsWith fails on a three-part concatenation whose constant head is at
least as long as the candidate prefix and already mismatches it. -/
theorem strStarts_concat_false (c v w p : String)
    (h : listIsPre p.data c.data = false)
    (hlen : p.data.length ≤ c.data.length) :
    strStarts (c ++ v ++ w) p = false := by
  unfold strStarts
  rw [strData_append, strData_append, List.append_assoc]
  exact listIsPre_append_false _ _ _ h hlen

theorem notConc_append {l₁ l₂ : List String}
    (h₁ : ∀ x ∈ l₁, notConcFactor x) (h₂ : ∀ x ∈ l₂, notConcFactor x) :
    ∀ x ∈ l₁ ++ l₂, notConcFactor x := by
  intro x hx
  rcases List.mem_append.mp hx with h | h
  · exact h₁ x h
  · exact h₂ x h

theorem notConc_ifSingle {c : Prop} [Decidable c] {a : String}
    (h : notConcFactor a) :
    ∀ x ∈ (if c then [a] else ([] : List String)), notConcFactor x := by
  intro x hx
  rw [mem_if_singleton hx]
  exact h

theorem notConc_nil : ∀ x ∈ ([] : List String), notConcFactor x := by
  intro x hx
  simp at hx

/-- The IP-infringement wording is not a concentration factor, whatever the
interpolated similarity score. -/
theorem notConc_ipCollectionStr (v : String) :
    notConcFactor ("Collection artwork may infringe IP rights (" ++ v
      ++ "% similarity)") :=
  ⟨strStarts_concat_false _ _ _ _ (by decide) (by decide),
    strStarts_concat_false _ _ _ _ (by decide) (by decide),
    strStarts_concat_false _ _ _ _ (by decide) (by decide)⟩

/-- No push after the concentration block of the live route's
analyzeCollectionRiskFactors is a concentration factor. -/
theorem collCheckRest_not_conc (nm : String)
    (es : Option CollCheck.ExternalStats)
    (tp : Option Blockchain.BitScrunchTradingPatterns)
    (pe : Option PriceEstResult) (ip : Option IpCheckResult) (ek : Bool)
    (esc : Option String) :
    ∀ x ∈ CollCheck.riskFactorsAfterConcentration nm es tp pe ip ek esc,
      notConcFactor x := by
  unfold CollCheck.riskFactorsAfterConcentration
  refine notConc_append (notConc_append (notConc_append (notConc_append
    (notConc_append (notConc_append ?_ ?_) ?_) ?_) ?_) ?_) ?_
  · exact notConc_ifSingle (by decide)
  · exact notConc_ifSingle (by decide)
  · rcases es with _ | es
    · exact notConc_nil
    · refine notConc_append ?_ ?_
      · rcases es.totalVolume with _ | v
        · exact notConc_nil
        · exact notConc_ifSingle (by decide)
      · rcases es.createdDaysAgo with _ | d
        · exact notConc_nil
        · exact notConc_ifSingle (by decide)
  · rcases tp with _ | tp
    · exact notConc_nil
    · refine notConc_append (notConc_append (notConc_append
        (notConc_append ?_ ?_) ?_) ?_) ?_ <;> exact notConc_ifSingle (by decide)
  · rcases pe with _ | pe
    · exact notConc_nil
    · exact notConc_ifSingle (by decide)
  · cases hb : es.bind (·.imageUrl) with
    | none => simp only [hb]; exact notConc_nil
    | some u =>
      simp only [hb]
      rcases ip with _ | ip
      · exact notConc_nil
      · exact notConc_ifSingle (notConc_ipCollectionStr _)
  · intro x hx
    split at hx
    · rcases esc with _ | src
      · simp at hx
      · rw [mem_if_singleton hx]; decide
    · simp at hx

/-- No push after the concentration block of part_006's
analyzeCollectionRiskFactors is a concentration factor. -/
theorem moralisRest_not_conc (coll : MoralisLib.CollectionMeta)
    (ha : HolderAnalysis) (isVer : Bool) :
    ∀ x ∈ MoralisLib.riskFactorsAfterConcentration coll ha isVer,
      notConcFactor x := by
  unfold MoralisLib.riskFactorsAfterConcentration
  refine notConc_append (notConc_append (notConc_append ?_ ?_) ?_) ?_
  · exact notConc_ifSingle (by decide)
  · rcases coll.name with _ | nm
    · exact notConc_nil
    · exact notConc_ifSingle (by decide)
  · intro x hx
    split at hx
    · rw [List.mem_singleton.mp hx]; decide
    · split at hx
      · rw [List.mem_singleton.mp hx]; decide
      · simp at hx
  · exact notConc_ifSingle (by decide)

/-- No push after the concentration block of the demo route's
analyzeCollectionRiskFactors is a concentration factor. -/
theorem demoRest_not_conc (nm : String) (r : ℚ) :
    ∀ x ∈ CollCheckDemo.riskFactorsAfterConcentration nm r,
      notConcFactor x := by
  unfold CollCheckDemo.riskFactorsAfterConcentration
  refine notConc_append (notConc_append (notConc_append ?_ ?_) ?_) ?_ <;>
    exact notConc_ifSingle (by decide)

/-! Claim C8. -/

/-- C8 counterexample: at a 40% top-5 concentration (which exceeds the 30%
tier), part_006's analyzeCollectionRiskFactors appends no concentration
factor at all — its factor list is empty for an otherwise clean collection,
refuting the claimed medium-concentration push. -/
theorem claim_C8_counterexample :
    topHolderPct
      [⟨"0xa1", 80, 8⟩, ⟨"0xa2", 80, 8⟩, ⟨"0xa3", 80, 8⟩,
        ⟨"0xa4", 80, 8⟩, ⟨"0xa5", 80, 8⟩] = 40
    ∧ (30 : ℚ) < 40 ∧ (40 : ℚ) ≤ 50
    ∧ MoralisLib.analyzeCollectionRiskFactors "0xc0ffee"
      ⟨some "Fine Apes", 1000⟩
      ⟨500, [⟨"0xa1", 80, 8⟩, ⟨"0xa2", 80, 8⟩, ⟨"0xa3", 80, 8⟩,
        ⟨"0xa4", 80, 8⟩, ⟨"0xa5", 80, 8⟩]⟩ true = [] := by
  have hp : topHolderPct
      [⟨"0xa1", 80, 8⟩, ⟨"0xa2", 80, 8⟩, ⟨"0xa3", 80, 8⟩,
        ⟨"0xa4", 80, 8⟩, ⟨"0xa5", 80, 8⟩] = 40 := by
    norm_num [topHolderPct, List.foldl]
  refine ⟨hp, by norm_num, by norm_num, ?_⟩
  simp only [MoralisLib.analyzeCollectionRiskFactors,
    MoralisLib.concentrationFactors, MoralisLib.riskFactorsAfterConcentration,
    hp]
  norm_num
  decide

/-- C8 amended: the two-tier concentration rule (above 50% exactly one
high-concentration factor, else above 30% exactly one medium-concentration
factor, else none) holds for the live collection-check route's
analyzeCollectionRiskFactors when the holder list is non-empty; the
versions in src/app/api/collection-check/route.ts and part_006 instead
append exactly one concentration factor when the top-5 percentage exceeds
50 and none otherwise (they have no 30% tier). -/
theorem claim_C8_amended :
    (∀ (ca nm : String) (ha : HolderAnalysis)
      (es : Option CollCheck.ExternalStats)
      (tp : Option Blockchain.BitScrunchTradingPatterns)
      (pe : Option PriceEstResult) (ip : Option IpCheckResult) (ek : Bool)
      (esc : Option String),
      (ha.topHolders ≠ [] → topHolderPct ha.topHolders > 50 →
        (CollCheck.analyzeCollectionRiskFactors ca nm ha es tp pe ip ek
          esc).countP isHighConcFactor = 1
        ∧ (CollCheck.analyzeCollectionRiskFactors ca nm ha es tp pe ip ek
          esc).countP isMedConcFactor = 0)
      ∧ (ha.topHolders ≠ [] → topHolderPct ha.topHolders ≤ 50 →
          topHolderPct ha.topHolders > 30 →
        (CollCheck.analyzeCollectionRiskFactors ca nm ha es tp pe ip ek
          esc).countP isMedConcFactor = 1
        ∧ (CollCheck.analyzeCollectionRiskFactors ca nm ha es tp pe ip ek
          esc).countP isHighConcFactor = 0)
      ∧ (topHolderPct ha.topHolders ≤ 30 →
        (CollCheck.analyzeCollectionRiskFactors ca nm ha es tp pe ip ek
          esc).countP isHighConcFactor = 0
        ∧ (CollCheck.analyzeCollectionRiskFactors ca nm ha es tp pe ip ek
          esc).countP isMedConcFactor = 0))
    ∧ (∀ (ca : String) (coll : MoralisLib.CollectionMeta)
      (ha : HolderAnalysis) (isVer : Bool),
      (MoralisLib.analyzeCollectionRiskFactors ca coll ha
        isVer).countP isTop5ConcFactor
        = if topHolderPct ha.topHolders > 50 then 1 else 0)
    ∧ (∀ (ca nm : String) (ths : List Holder) (r : ℚ),
      (CollCheckDemo.analyzeCollectionRiskFactors ca nm ths
        r).countP isTop5ConcFactor
        = if topHolderPct ths > 50 then 1 else 0) := by
  refine ⟨?_, ?_, ?_⟩
  · intro ca nm ha es tp pe ip ek esc
    have hrest := collCheckRest_not_conc nm es tp pe ip ek esc
    have hrestH : (CollCheck.riskFactorsAfterConcentration nm es tp pe ip ek
        esc).countP isHighConcFactor = 0 :=
      List.countP_eq_zero.mpr (fun x hx => by simp [(hrest x hx).1])
    have hrestM : (CollCheck.riskFactorsAfterConcentration nm es tp pe ip ek
        esc).countP isMedConcFactor = 0 :=
      List.countP_eq_zero.mpr (fun x hx => by simp [(hrest x hx).2.1])
    unfold CollCheck.analyzeCollectionRiskFactors
    refine ⟨fun hne hgt => ?_, fun hne hle hgt => ?_, fun hle => ?_⟩
    · have hlen : ha.topHolders.length > 0 := List.length_pos.mpr hne
      have hconc : CollCheck.concentrationFactors ha
          = ["High concentration: Top 5 holders own "
            ++ toFixed1 (topHolderPct ha.topHolders) ++ "% of supply 🐋"] := by
        unfold CollCheck.concentrationFactors
        rw [if_pos hlen, if_pos hgt]
      have hH : isHighConcFactor ("High concentration: Top 5 holders own "
          ++ toFixed1 (topHolderPct ha.topHolders) ++ "% of supply 🐋")
          = true := strStarts_concat_true _ _ _ _ (by decide)
      have hM : isMedConcFactor ("High concentration: Top 5 holders own "
          ++ toFixed1 (topHolderPct ha.topHolders) ++ "% of supply 🐋")
          = false := strStarts_concat_false _ _ _ _ (by decide) (by decide)
      constructor
      · rw [List.countP_append, hrestH, Nat.add_zero, hconc]
        simp [List.countP_cons, hH]
      · rw [List.countP_append, hrestM, Nat.add_zero, hconc]
        simp [List.countP_cons, hM]
    · have hlen : ha.topHolders.length > 0 := List.length_pos.mpr hne
      have hngt : ¬ topHolderPct ha.topHolders > 50 := not_lt.mpr hle
      have hconc : CollCheck.concentrationFactors ha
          = ["Medium concentration: Top 5 holders own "
            ++ toFixed1 (topHolderPct ha.topHolders) ++ "% of supply"] := by
        unfold CollCheck.concentrationFactors
        rw [if_pos hlen, if_neg hngt, if_pos hgt]
      have hM : isMedConcFactor ("Medium concentration: Top 5 holders own "
          ++ toFixed1 (topHolderPct ha.topHolders) ++ "% of supply")
          = true := strStarts_concat_true _ _ _ _ (by decide)
      have hH : isHighConcFactor ("Medium concentration: Top 5 holders own "
          ++ toFixed1 (topHolderPct ha.topHolders) ++ "% of supply")
          = false := strStarts_concat_false _ _ _ _ (by decide) (by decide)
      constructor
      · rw [List.countP_append, hrestM, Nat.add_zero, hconc]
        simp [List.countP_cons, hM]
      · rw [List.countP_append, hrestH, Nat.add_zero, hconc]
        simp [List.countP_cons, hH]
    · have hconc : CollCheck.concentrationFactors ha = [] := by
        unfold CollCheck.concentrationFactors
        by_cases hne : ha.topHolders.length > 0
        · rw [if_pos hne,
            if_neg (not_lt.mpr (le_trans hle (by norm_num))),
            if_neg (not_lt.mpr hle)]
        · rw [if_neg hne]
      constructor
      · rw [List.countP_append, hrestH, Nat.add_zero, hconc]
        rfl
      · rw [List.countP_append, hrestM, Nat.add_zero, hconc]
        rfl
  · intro ca coll ha isVer
    have hrest := moralisRest_not_conc coll ha isVer
    have hrestT : (MoralisLib.riskFactorsAfterConcentration coll ha
        isVer).countP isTop5ConcFactor = 0 :=
      List.countP_eq_zero.mpr (fun x hx => by simp [(hrest x hx).2.2])
    unfold MoralisLib.analyzeCollectionRiskFactors
    rw [List.countP_append, hrestT, Nat.add_zero]
    unfold MoralisLib.concentrationFactors
    by_cases h : topHolderPct ha.topHolders > 50
    · rw [if_pos h, if_pos h]
      have hT : isTop5ConcFactor ("Top 5 holders own "
          ++ toFixed1 (topHolderPct ha.topHolders) ++ "% of supply 🐋")
          = true := strStarts_concat_true _ _ _ _ (by decide)
      simp [List.countP_cons, hT]
    · rw [if_neg h, if_neg h]
      rfl
  · intro ca nm ths r
    have hrest := demoRest_not_conc nm r
    have hrestT : (CollCheckDemo.riskFactorsAfterConcentration nm
        r).countP isTop5ConcFactor = 0 :=
      List.countP_eq_zero.mpr (fun x hx => by simp [(hrest x hx).2.2])
    unfold CollCheckDemo.analyzeCollectionRiskFactors
    rw [List.countP_append, hrestT, Nat.add_zero]
    unfold CollCheckDemo.concentrationFactors
    by_cases h : topHolderPct ths > 50
    · rw [if_pos h, if_pos h]
      have hT : isTop5ConcFactor ("Top 5 holders own "
          ++ toFixed1 (topHolderPct ths) ++ "% of supply 🐋")
          = true := strStarts_concat_true _ _ _ _ (by decide)
      simp [List.countP_cons, hT]
    · rw [if_neg h, if_neg h]
      rfl

/-- C8 amended witness: one holder owning 60% of supply yields exactly one
high-concentration factor and no medium one in the live route. -/
theorem claim_C8_witness :
    (CollCheck.analyzeCollectionRiskFactors "0xc" "Fine Apes"
      ⟨100, [⟨"0x1", 60, 60⟩]⟩ none none none none false
      none).countP isHighConcFactor = 1
    ∧ (CollCheck.analyzeCollectionRiskFactors "0xc" "Fine Apes"
      ⟨100, [⟨"0x1", 60, 60⟩]⟩ none none none none false
      none).countP isMedConcFactor = 0 :=
  (claim_C8_amended.1 "0xc" "Fine Apes" ⟨100, [⟨"0x1", 60, 60⟩]⟩ none none
    none none false none).1 (by simp) (by norm_num [topHolderPct, List.foldl])

/-! Claim C1. -/

/-- C1 counterexample: a subject with exactly two risk factors is classified
high (not medium) by part_006's calculateNFTRiskLevel, refuting the claimed
uniform threshold (3 or more for high) at a concrete input. -/
theorem claim_C1_counterexample :
    MoralisLib.calculateNFTRiskLevel ["a", "b"] = RiskLevel.high
    ∧ RiskLevel.high ≠ RiskLevel.medium := by
  constructor
  · rfl
  · decide

/-- C1 amended: the classification thresholds (3 or more factors high, 1 or
2 medium, 0 low) hold for calculateTokenRisk, calculateCollectionRisk,
part_006's calculateTokenRiskLevel and the wallet routes per-NFT level, but
part_006's calculateNFTRiskLevel and the wallet routes per-token level
already classify two factors as high, and the latter additionally forces a
known-safe address to low. -/
theorem claim_C1_amended :
    (∀ t : Blockchain.TokenInfo,
      Blockchain.calculateTokenRisk t = levelFromCount3 t.riskFactors.length)
    ∧ (∀ c : Blockchain.CollectionInfo,
      Blockchain.calculateCollectionRisk c
        = levelFromCount3 c.riskFactors.length)
    ∧ (∀ fs : List String,
      MoralisLib.calculateTokenRiskLevel fs = levelFromCount3 fs.length)
    ∧ (∀ fs : List String,
      WalletScan.walletNFTRiskLevel fs = levelFromCount3 fs.length)
    ∧ (∀ fs : List String,
      MoralisLib.calculateNFTRiskLevel fs = levelFromCount2 fs.length)
    ∧ (∀ (addr : String) (fs : List String),
      Blockchain.KNOWN_SAFE_TOKENS.contains (jsToLower addr) = false →
        WalletScan.walletTokenRiskLevel addr fs = levelFromCount2 fs.length) := by
  refine ⟨fun t => rfl, fun c => rfl, fun fs => rfl, fun fs => rfl,
    fun fs => rfl, fun addr fs h => ?_⟩
  unfold WalletScan.walletTokenRiskLevel
  rw [h]
  rfl

/-- C1 amended witness at a concrete non-allow-listed address with two
factors. -/
theorem claim_C1_witness :
    WalletScan.walletTokenRiskLevel "0xdead" ["a", "b"] = levelFromCount2 2 :=
  claim_C1_amended.2.2.2.2.2 "0xdead" ["a", "b"] (by decide)

/-! Claim C4. -/

/-- C4: the wallet aggregate score is the capped weighted count of risky
holdings (3 per high token, 1 per medium token, 2 per high NFT, 1 per
medium NFT, capped at 100), stays at most 100, and the wallet level relates
to the documented thresholds (at least 10 high, at least 5 medium,
otherwise low). -/
theorem claim_C4 (tokens : List Blockchain.TokenInfo)
    (nfts : List Blockchain.NFTInfo) :
    Blockchain.calculateWalletRiskScore tokens nfts
      = min (3 * tokens.countP (fun t => decide (t.riskLevel = .high))
          + tokens.countP (fun t => decide (t.riskLevel = .medium))
          + 2 * nfts.countP (fun n => decide (n.riskLevel = .high))
          + nfts.countP (fun n => decide (n.riskLevel = .medium))) 100
    ∧ Blockchain.calculateWalletRiskScore tokens nfts ≤ 100
    ∧ (WalletScan.walletRiskLevel (Blockchain.calculateWalletRiskScore tokens nfts)
        = .high ↔ 10 ≤ Blockchain.calculateWalletRiskScore tokens nfts)
    ∧ (WalletScan.walletRiskLevel (Blockchain.calculateWalletRiskScore tokens nfts)
        = .medium ↔ 5 ≤ Blockchain.calculateWalletRiskScore tokens nfts
          ∧ Blockchain.calculateWalletRiskScore tokens nfts < 10)
    ∧ (WalletScan.walletRiskLevel (Blockchain.calculateWalletRiskScore tokens nfts)
        = .low ↔ Blockchain.calculateWalletRiskScore tokens nfts < 5) := by
  have hscore : Blockchain.calculateWalletRiskScore tokens nfts
      = min (3 * tokens.countP (fun t => decide (t.riskLevel = .high))
          + tokens.countP (fun t => decide (t.riskLevel = .medium))
          + 2 * nfts.countP (fun n => decide (n.riskLevel = .high))
          + nfts.countP (fun n => decide (n.riskLevel = .medium))) 100 := by
    unfold Blockchain.calculateWalletRiskScore
    rw [foldl_risk_count 3 1 (fun t => t.riskLevel) tokens 0,
      foldl_risk_count 2 1 (fun n => n.riskLevel) nfts]
    congr 1
    ring
  refine ⟨hscore, ?_, ?_, ?_, ?_⟩
  · rw [hscore]; exact Nat.min_le_right _ _
  all_goals
    unfold WalletScan.walletRiskLevel
    split <;> rename_i h1
  · simp [h1]
  · split <;> rename_i h2
    · simp; omega
    · simp; omega
  · simp; omega
  · split <;> rename_i h2
    · simp; omega
    · simp; omega
  · simp; omega
  · split <;> rename_i h2
    · simp; omega
    · simp; omega

/-! Claim C9. -/

/-- C9 counterexample: a data: image URL is flagged as potentially
inaccessible by analyzeBasicNFTRisk, although the claim lists data: among
the allowed schemes. -/
theorem claim_C9_counterexample :
    "Potentially inaccessible image URL" ∈ Blockchain.analyzeBasicNFTRisk
      { contractAddress := "0xc", tokenId := "1", name := some "Art",
        metadata := none }
      (some
        { name := some "Art", description := none,
          image := some "data:image/png;base64,AA" }) := by
  decide

/-- C9 amended: analyzeBasicNFTRisk does not flag an image URL as
potentially inaccessible when it uses the https or ipfs scheme; data: URLs
are flagged (only the nft-analyzer route's own metadata check additionally
allows data:). -/
theorem claim_C9_amended (d : Blockchain.NFTData) (m : Blockchain.NFTMetadata)
    (img : String) (him : m.image = some img)
    (hs : strStarts img "https://" = true ∨ strStarts img "ipfs://" = true) :
    "Potentially inaccessible image URL"
      ∉ Blockchain.analyzeBasicNFTRisk d (some m) := by
  intro hmem
  unfold Blockchain.analyzeBasicNFTRisk at hmem
  simp only [List.mem_append] at hmem
  rcases hmem with (h | h) | h
  · exact absurd (mem_if_singleton h) (by decide)
  · exact absurd (mem_if_singleton h) (by decide)
  · rw [him] at h
    by_cases he : img = ""
    · rw [he] at h
      rw [show jsTruthy (some "") = false from rfl] at h
      simp only [Bool.false_eq_true, if_false] at h
      exact absurd (List.mem_singleton.mp h) (by decide)
    · have ht : jsTruthy (some img) = true := by
        unfold jsTruthy
        exact bne_iff_ne.mpr he
      rw [ht] at h
      simp only [if_true] at h
      split at h
      · rename_i hcond
        simp only [Option.getD_some] at hcond
        rcases hs with hs | hs
        · rw [hs] at hcond
          simp at hcond
        · rw [hs] at hcond
          simp at hcond
      · simp at h

/-- C9 amended witness at a concrete ipfs image URL. -/
theorem claim_C9_witness :
    strStarts "ipfs://QmXyz" "ipfs://" = true
    ∧ "Potentially inaccessible image URL" ∉ Blockchain.analyzeBasicNFTRisk
      { contractAddress := "0xc", tokenId := "1", name := some "Art",
        metadata := none }
      (some
        { name := some "Art", description := none,
          image := some "ipfs://QmXyz" }) :=
  ⟨by decide,
    claim_C9_amended _ _ "ipfs://QmXyz" rfl (Or.inr (by decide))⟩

/-! Claim C5. -/

/-- C5 counterexample: the BAYC address sits on the known-audited
allow-list (so getAuditStatus reports passed), yet with an unverified
Etherscan response and a BitScrunch wash-trading signal the live route's
analyzeCollectionRiskFactors still emits both the unverified-contract and
the wash-trading factor: the allow-list does not suppress factors. -/
theorem claim_C5_counterexample :
    CollCheck.knownAuditedCollections.contains
      (jsToLower "0xbc4ca0eda7647a8ab7c2061c2e118a18a936f13d") = true
    ∧ CollCheck.getAuditStatus "0xbc4ca0eda7647a8ab7c2061c2e118a18a936f13d"
      "Bored Ape Yacht Club" = .passed
    ∧ "Contract not verified on Etherscan"
      ∈ CollCheck.analyzeCollectionRiskFactors
        "0xbc4ca0eda7647a8ab7c2061c2e118a18a936f13d" "Bored Ape Yacht Club"
        ⟨0, []⟩ none (some ⟨true, false, false, false, false, false⟩) none
        none true (some "")
    ∧ "BitScrunch AI detected wash trading patterns in collection"
      ∈ CollCheck.analyzeCollectionRiskFactors
        "0xbc4ca0eda7647a8ab7c2061c2e118a18a936f13d" "Bored Ape Yacht Club"
        ⟨0, []⟩ none (some ⟨true, false, false, false, false, false⟩) none
        none true (some "") := by
  refine ⟨by decide, by decide, ?_, ?_⟩ <;>
    · unfold CollCheck.analyzeCollectionRiskFactors
        CollCheck.concentrationFactors CollCheck.riskFactorsAfterConcentration
      decide

/-- C5 amended: allow-list membership overrides only the classification
outputs, not the factor lists: a lower-cased member of KNOWN_SAFE_TOKENS is
forced to per-token level low by the wallet route, and a lower-cased member
of knownAuditedCollections is reported as audit-passed, while the
unverified-contract and wash-trading factors can still be emitted for such
addresses. -/
theorem claim_C5_amended :
    (∀ (addr : String) (fs : List String),
      Blockchain.KNOWN_SAFE_TOKENS.contains (jsToLower addr) = true →
        WalletScan.walletTokenRiskLevel addr fs = .low)
    ∧ (∀ (addr nm : String),
      CollCheck.knownAuditedCollections.contains (jsToLower addr) = true →
        CollCheck.getAuditStatus addr nm = .passed) := by
  constructor
  · intro addr fs h
    unfold WalletScan.walletTokenRiskLevel
    rw [h]
    rfl
  · intro addr nm h
    unfold CollCheck.getAuditStatus
    rw [h]
    rfl

/-- C5 amended witness: USDT (two factors would otherwise give high) is
forced low, and BAYC is reported audit-passed. -/
theorem claim_C5_witness :
    WalletScan.walletTokenRiskLevel
      "0xdac17f958d2ee523a2206206994597c13d831ec7"
      ["Test token detected", "Unusually long token symbol"] = .low
    ∧ CollCheck.getAuditStatus "0xbc4ca0eda7647a8ab7c2061c2e118a18a936f13d"
      "BAYC" = .passed :=
  ⟨claim_C5_amended.1 "0xdac17f958d2ee523a2206206994597c13d831ec7"
      ["Test token detected", "Unusually long token symbol"] (by decide),
    claim_C5_amended.2 "0xbc4ca0eda7647a8ab7c2061c2e118a18a936f13d" "BAYC"
      (by decide)⟩

/-! Claim C2. -/

/-- C2 failing behaviour: the demo collection-check route's
analyzeCollectionRiskFactors and getAuditStatus each consume a fresh
Math.random() draw, so two evaluations on identical collection facts (here
an unremarkable name and an empty holder list) with draws 0.9 and 0.1
produce different factor lists and different audit statuses. -/
theorem claim_C2_bug :
    CollCheckDemo.analyzeCollectionRiskFactors "0x1234" "Cool Cats" []
      (9 / 10)
      ≠ CollCheckDemo.analyzeCollectionRiskFactors "0x1234" "Cool Cats" []
      (1 / 10)
    ∧ CollCheckDemo.getAuditStatus (9 / 10)
      ≠ CollCheckDemo.getAuditStatus (1 / 10) := by
  have h1 : CollCheckDemo.analyzeCollectionRiskFactors "0x1234" "Cool Cats" []
      (9 / 10) = ["Wash trading risk detected ⚠️",
        "Floor price volatility: High 🔺", "Limited marketplace presence"] := by
    unfold CollCheckDemo.analyzeCollectionRiskFactors
      CollCheckDemo.concentrationFactors
      CollCheckDemo.riskFactorsAfterConcentration
    norm_num [topHolderPct]
    decide
  have h2 : CollCheckDemo.analyzeCollectionRiskFactors "0x1234" "Cool Cats" []
      (1 / 10) = [] := by
    unfold CollCheckDemo.analyzeCollectionRiskFactors
      CollCheckDemo.concentrationFactors
      CollCheckDemo.riskFactorsAfterConcentration
    norm_num [topHolderPct]
    decide
  have h3 : CollCheckDemo.getAuditStatus (9 / 10) = .failed := by
    unfold CollCheckDemo.getAuditStatus
    norm_num
  have h4 : CollCheckDemo.getAuditStatus (1 / 10) = .unknown := by
    unfold CollCheckDemo.getAuditStatus
    norm_num
  refine ⟨?_, ?_⟩
  · rw [h1, h2]; simp
  · rw [h3, h4]; simp

/-! Claim C3. -/

/-- C3: the token-balance coordinator never rejects (every branch resolves),
and when the Moralis side is unconfigured or exhausted and the Alchemy side
is unconfigured or exhausted it resolves to the explicit empty list. -/
theorem claim_C3 :
    (∀ (mk ak : Option String)
      (mop aop : Nat → Except Blockchain.ApiError (List String)),
      ∃ v, Blockchain.getWalletTokens mk ak mop aop = .ok v)
    ∧ (∀ (mk ak : Option String)
      (mop aop : Nat → Except Blockchain.ApiError (List String)),
      (mk = none ∨ ∀ n, ∃ e, mop n = .error e) →
      (ak = none ∨ ∀ n, ∃ e, aop n = .error e) →
      Blockchain.getWalletTokens mk ak mop aop = .ok []) := by
  constructor
  · intro mk ak mop aop
    have halch : ∃ v, Blockchain.getWalletTokensAlchemy ak aop = .ok v := by
      rcases ak with _ | k
      · exact ⟨[], rfl⟩
      · cases h : Blockchain.withRetry aop 2 with
        | ok r => exact ⟨r, by simp [Blockchain.getWalletTokensAlchemy, h]⟩
        | error e => exact ⟨[], by simp [Blockchain.getWalletTokensAlchemy, h]⟩
    rcases mk with _ | k
    · exact halch
    · cases h : Blockchain.withRetry mop 2 with
      | ok r => exact ⟨r, by simp [Blockchain.getWalletTokens, h]⟩
      | error e =>
        obtain ⟨v, hv⟩ := halch
        exact ⟨v, by simp [Blockchain.getWalletTokens, h, hv]⟩
  · intro mk ak mop aop hm ha
    have halch : Blockchain.getWalletTokensAlchemy ak aop = .ok [] := by
      rcases ak with _ | k
      · rfl
      · rcases ha with h | h
        · simp at h
        · obtain ⟨e1, he1⟩ := h 1
          obtain ⟨e2, he2⟩ := h 2
          simp [Blockchain.getWalletTokensAlchemy, Blockchain.withRetry,
            Blockchain.withRetryGo, he1, he2]
    rcases mk with _ | k
    · exact halch
    · rcases hm with h | h
      · simp at h
      · obtain ⟨e1, he1⟩ := h 1
        obtain ⟨e2, he2⟩ := h 2
        simp [Blockchain.getWalletTokens, Blockchain.withRetry,
          Blockchain.withRetryGo, he1, he2, halch]

/-- C3 witness: with no provider keys configured the fetch resolves to the
empty list. -/
theorem claim_C3_witness :
    Blockchain.getWalletTokens none none
      (fun _ => Except.error (Blockchain.ApiError.httpFailure none))
      (fun _ => Except.error (Blockchain.ApiError.httpFailure none))
      = .ok ([] : List String) :=
  claim_C3.2 none none _ _ (Or.inl rfl) (Or.inl rfl)

/-! Claim C6. -/

/-- C6 counterexample: an operation that always fails with HTTP 401 (mapped
to the Invalid Moralis API key error) is attempted twice by the
maxAttempts = 2 retry loop used for Moralis calls, not once as the claim
requires. -/
theorem claim_C6_counterexample :
    (Blockchain.withRetryCount
      (Blockchain.moralisTokensOp
        (fun _ => Except.error (some 401) : Blockchain.MoralisRaw String))
      2).2 = 2
    ∧ (2 : Nat) ≠ 1
    ∧ (Blockchain.withRetryCount
      (Blockchain.moralisTokensOp
        (fun _ => Except.error (some 401) : Blockchain.MoralisRaw String))
      2).1
      = .error (.unauthorized "Invalid Moralis API key") := by
  refine ⟨rfl, by decide, rfl⟩

/-- C6 amended: withRetry treats every failure alike: an operation that
fails on every attempt (for example with Unauthorized) is attempted exactly
maxAttempts = 2 times, the retry layer then surfaces the last error, and
getWalletTokens advances to the Alchemy provider. -/
theorem claim_C6_amended
    (op : Nat → Except Blockchain.ApiError (List String))
    (h : ∀ n, ∃ e, op n = .error e) :
    (Blockchain.withRetryCount op 2).2 = 2
    ∧ (∃ e, Blockchain.withRetry op 2 = .error e)
    ∧ ∀ (ak : Option String)
      (aop : Nat → Except Blockchain.ApiError (List String)),
      Blockchain.getWalletTokens (some "key") ak op aop
        = Blockchain.getWalletTokensAlchemy ak aop := by
  obtain ⟨e1, he1⟩ := h 1
  obtain ⟨e2, he2⟩ := h 2
  have hr : Blockchain.withRetry op 2 = .error e2 := by
    simp [Blockchain.withRetry, Blockchain.withRetryGo, he1, he2]
  refine ⟨?_, ⟨e2, hr⟩, ?_⟩
  · simp [Blockchain.withRetryCount, Blockchain.withRetryGoCount, he1, he2]
  · intro ak aop
    simp [Blockchain.getWalletTokens, hr]

/-- C6 amended witness at an always-Unauthorized operation. -/
theorem claim_C6_witness :
    (Blockchain.withRetryCount
      ((fun _ => Except.error
        (Blockchain.ApiError.unauthorized "Invalid Moralis API key")) :
        Nat → Except Blockchain.ApiError (List String)) 2).2 = 2
    ∧ (∃ e, Blockchain.withRetry
      ((fun _ => Except.error
        (Blockchain.ApiError.unauthorized "Invalid Moralis API key")) :
        Nat → Except Blockchain.ApiError (List String)) 2 = .error e)
    ∧ ∀ (ak : Option String)
      (aop : Nat → Except Blockchain.ApiError (List String)),
      Blockchain.getWalletTokens (some "key") ak
        ((fun _ => Except.error
          (Blockchain.ApiError.unauthorized "Invalid Moralis API key")) :
          Nat → Except Blockchain.ApiError (List String)) aop
        = Blockchain.getWalletTokensAlchemy ak aop :=
  claim_C6_amended _ (fun _ => ⟨_, rfl⟩)

/-! Claim C7. -/

/-- C7 failing behaviour: when both the ownerOf and the tokenURI on-chain
calls fail (and no auxiliary provider contributes), analyzeNFT of the
BitScrunch nft-analyzer route does not produce the claimed terminal
Analysis Failed verdict: the per-call catches substitute empty strings, the
analysis proceeds, and the result is an ordinary verdict named Token #1
with riskLevel medium and two metadata factors, without any
token-may-not-exist factor. -/
theorem claim_C7_bug :
    (NftAnalyzer.analyzeNFT "0xc" "1" none none none none none none none none
      none none none none none).riskFactors
      = ["Missing or incomplete metadata", "No image URL found"]
    ∧ (NftAnalyzer.analyzeNFT "0xc" "1" none none none none none none none
      none none none none none none).riskLevel = .medium
    ∧ (NftAnalyzer.analyzeNFT "0xc" "1" none none none none none none none
      none none none none none none).name = "Token #1"
    ∧ "Token may not exist or be invalid"
      ∉ (NftAnalyzer.analyzeNFT "0xc" "1" none none none none none none none
      none none none none none none).riskFactors
    ∧ "NFT analysis failed"
      ∉ (NftAnalyzer.analyzeNFT "0xc" "1" none none none none none none none
      none none none none none none).riskFactors := by
  refine ⟨?_, ?_, ?_, ?_, ?_⟩ <;> decide

/-! Claim C10. -/

/-- C10: analyzeTokenRisk never emits the high-volatility factor because the
lower-cased probe cannot match the mixed-case entry of
KNOWN_RISKY_TOKENS. -/
theorem claim_C10 (addr : String) (info : Blockchain.TokenMeta) :
    "High volatility token" ∉ Blockchain.analyzeTokenRisk addr info := by
  have hc : Blockchain.KNOWN_RISKY_TOKENS.contains (jsToLower addr) = false := by
    unfold Blockchain.KNOWN_RISKY_TOKENS
    simp only [List.contains_cons, List.contains_nil, Bool.or_false,
      beq_iff_eq]
    exact beq_eq_false_iff_ne.mpr (jsToLower_ne_pepe addr)
  intro hmem
  unfold Blockchain.analyzeTokenRisk at hmem
  rw [hc] at hmem
  simp only [Bool.false_eq_true, if_false, List.nil_append,
    List.mem_append] at hmem
  rcases hmem with (h | h) | h <;>
    exact absurd (mem_if_singleton h) (by decide)
